import Mathlib

/-!
Verification of the version-pioneer version resolution and rendering engine.

The Python sources embedded here are:
  - src/version_pioneer/versionscript.py  (the full versionscript: GitPieces,
    GitMasterDistance, the style renderers, _run_command, and
    get_version_dict_with_all_methods)
  - src/version_pioneer/_version.py       (the vendored module: GitPieces,
    _git_versions_from_keywords, _run_command, get_versions)

Effectful operations (subprocess invocations of git, filesystem probes) are
modelled by explicit world parameters recording the observable outcome of each
call; everything else is translated directly from the Python source.
-/

namespace VersionPioneer

/-! ## Python string primitives

Helpers mirroring the exact Python `str` methods the source uses.  All of them
are structural recursions over `List Char` so that concrete evaluations reduce
in the kernel.
-/

/-- Characters Python's `str.strip()` removes (ASCII whitespace). -/
def isPySpace (c : Char) : Bool :=
  c = ' ' || c = '\t' || c = '\n' || c = '\r' || c = '\x0b' || c = '\x0c'

/-- Python `s.strip()`. -/
def pyStrip (s : String) : String :=
  String.mk (((s.data.dropWhile isPySpace).reverse.dropWhile isPySpace).reverse)

/-- Python `s.strip(chars)`: remove any of the given characters from both ends. -/
def pyStripChars (cs : List Char) (s : String) : String :=
  String.mk (((s.data.dropWhile (cs.contains ·)).reverse.dropWhile (cs.contains ·)).reverse)

/-- Python `s.lstrip(chars)`. -/
def pyLstripChars (cs : List Char) (s : String) : String :=
  String.mk (s.data.dropWhile (cs.contains ·))

/-- Python `s.startswith(pre)`. -/
def pyStartsWith (s pre : String) : Bool :=
  pre.data.isPrefixOf s.data

/-- Python `s.endswith(suf)`. -/
def pyEndsWith (s suf : String) : Bool :=
  suf.data.isSuffixOf s.data

/-- Python `len(s)`. -/
def pyLen (s : String) : Nat := s.data.length

/-- Python `s[:n]`. -/
def pyTake (s : String) (n : Nat) : String := String.mk (s.data.take n)

/-- Python `s[n:]`. -/
def pyDrop (s : String) (n : Nat) : String := String.mk (s.data.drop n)

/-- Python `c in s` for a single character. -/
def pyContainsChar (s : String) (c : Char) : Bool := s.data.contains c

/-- Split a character list at every occurrence of the character `c`. -/
def splitCharAux (c : Char) : List Char → List (List Char)
  | [] => [[]]
  | x :: xs =>
    if x = c then [] :: splitCharAux c xs
    else
      match splitCharAux c xs with
      | [] => [[x]]
      | h :: t => (x :: h) :: t

/-- Python `s.split(sep)` for a one-character separator. -/
def pySplitChar (c : Char) (s : String) : List String :=
  (splitCharAux c s.data).map String.mk

/-- Fuelled splitter for a multi-character separator (fuel is the list length,
so the fuel-exhausted branch is unreachable). -/
def splitOnFuel (sep : List Char) : Nat → List Char → List (List Char)
  | _, [] => [[]]
  | 0, s => [s]
  | fuel + 1, x :: xs =>
    if sep.isPrefixOf (x :: xs) && !sep.isEmpty then
      [] :: splitOnFuel sep fuel ((x :: xs).drop sep.length)
    else
      match splitOnFuel sep fuel xs with
      | [] => [[x]]
      | h :: t => (x :: h) :: t

/-- Python `s.split(sep)` for an arbitrary non-empty separator. -/
def pySplitStr (sep : String) (s : String) : List String :=
  (splitOnFuel sep.data s.data.length s.data).map String.mk

/-- Helper for Python's no-argument `s.split()`: group the non-whitespace runs. -/
def splitWsAux (cur : List Char) : List Char → List (List Char)
  | [] => if cur.isEmpty then [] else [cur.reverse]
  | x :: xs =>
    if isPySpace x then
      if cur.isEmpty then splitWsAux [] xs else cur.reverse :: splitWsAux [] xs
    else splitWsAux (x :: cur) xs

/-- Python `s.split()` (split on whitespace runs, discarding empty fields). -/
def pySplitWs (s : String) : List String :=
  (splitWsAux [] s.data).map String.mk

/-- Python `s.splitlines()` restricted to `\n` terminators: newline-separated
fields, with a final empty field (from a trailing newline) dropped. -/
def pySplitlines (s : String) : List String :=
  let parts := pySplitChar '\n' s
  if parts.getLast? = some "" then parts.dropLast else parts

/-- Replace the first occurrence of the character `c` by the characters `r`
(Python `s.replace(c, r, 1)`; deleting when `r = []`). -/
def replaceFirstChars (c : Char) (r : List Char) : List Char → List Char
  | [] => []
  | x :: xs => if x = c then r ++ xs else x :: replaceFirstChars c r xs

/-- Numeric value of a digit string (the guaranteed-digits case of `int(...)`). -/
def digitsToNat (ds : List Char) : Nat :=
  ds.foldl (fun n c => n * 10 + (c.toNat - '0'.toNat)) 0

/-- Python string comparison (lexicographic on code points), as a Bool. -/
def listCharLe : List Char → List Char → Bool
  | [], _ => true
  | _ :: _, [] => false
  | c :: cs, d :: ds =>
    if c.toNat < d.toNat then true
    else if d.toNat < c.toNat then false
    else listCharLe cs ds

/-- Python `a <= b` on strings. -/
def pyStrLe (a b : String) : Bool := listCharLe a.data b.data

/-- Insert into a sorted list (used to model Python `sorted`). -/
def insertLe (x : String) : List String → List String
  | [] => [x]
  | y :: ys => if pyStrLe x y then x :: y :: ys else y :: insertLe x ys

/-- Python `sorted(xs)` on strings (stable insertion sort; the inputs we sort
are duplicate-free, so this agrees with any sort). -/
def pySorted : List String → List String
  | [] => []
  | x :: xs => insertLe x (pySorted xs)

/-- Model of a Python `set(...)` built from a list: duplicates removed,
first occurrence kept (iteration order is only ever observed through
`sorted`, so keeping first occurrences is adequate). -/
def pySetList (xs : List String) : List String :=
  xs.foldl (fun acc x => if acc.contains x then acc else acc ++ [x]) []

/-- Truthiness of a Python `Optional[str]` (`None` and `""` are falsy). -/
def pyTruthyStr (o : Option String) : Bool :=
  match o with
  | none => false
  | some s => !(s == "")

/-- Truthiness of a Python `Optional[int]` (`None` and `0` are falsy). -/
def pyTruthyNat (o : Option Nat) : Bool :=
  match o with
  | none => false
  | some n => !(n == 0)

/-- Python `f"{x}"` for an `Optional[int]` field (`None` prints as "None"). -/
def strOfOptNat (o : Option Nat) : String :=
  match o with
  | none => "None"
  | some n => toString n

/-- Python `x or d` for an `Optional[str]` value. -/
def pyOrStr (o : Option String) (d : String) : String :=
  if pyTruthyStr o then o.getD "" else d

/-! ## Shared data model -/

/-- The Python exceptions the engine can raise.  `NotThisMethodError` and
`CurrentBranchIsMasterError` are the two domain exceptions of the source; the
rest are builtin exceptions that particular lines can raise. -/
inductive PyErr
  | notThisMethod
  | currentBranchIsMaster
  /-- the ValueError("Unable to render version") raised by `_render_digits` -/
  | valueErrorUnableToRender
  /-- the ValueError raised by `int(...)` on a non-numeric string -/
  | valueErrorBadInt
  /-- the TypeError raised by `None + 1` in `_render_digits` -/
  | typeError
  | assertionError
  | indexError
  | keyError
deriving DecidableEq, Repr

/-- Python `int(s)` on a string: optional sign then digits, after stripping
whitespace; anything else raises ValueError.  (Underscore digit separators
are not modelled; no input in this development contains one.) -/
def pyInt (s : String) : Except PyErr Int :=
  let t := (pyStrip s).data
  match t with
  | '+' :: ds =>
    if !ds.isEmpty && ds.all Char.isDigit then .ok (digitsToNat ds) else .error .valueErrorBadInt
  | '-' :: ds =>
    if !ds.isEmpty && ds.all Char.isDigit then .ok (-(digitsToNat ds : Int))
    else .error .valueErrorBadInt
  | ds =>
    if !ds.isEmpty && ds.all Char.isDigit then .ok (digitsToNat ds) else .error .valueErrorBadInt

/-- `VersionDict`, the record type both modules return
(`{version, full_revisionid, dirty, error, date}`). -/
structure VersionDict where
  version : String
  full_revisionid : Option String
  dirty : Option Bool
  error : Option String
  date : Option String
deriving DecidableEq, Repr

/-- The record returned when every resolution strategy fails
(identical literal in versionscript.py and _version.py). -/
def unableToComputeRecord : VersionDict :=
  { version := "0+unknown"
    full_revisionid := none
    dirty := none
    error := some "unable to compute version"
    date := none }

/-! ## Process Runner (`_run_command`, identical in both modules)

The ambient operating system is modelled by a function giving, for each
candidate executable name, what happens when `subprocess.Popen` is attempted
for this invocation. -/

/-- Outcome of attempting to launch one candidate executable. -/
inductive LaunchOutcome
  /-- `OSError` with `errno == ENOENT`: the candidate is skipped -/
  | enoent
  /-- any other `OSError`: `_run_command` returns `(None, None)` -/
  | oserror
  /-- the process launched, produced `stdoutBytes` on stdout and exited
  with `returncode` -/
  | launched (stdoutBytes : String) (returncode : Int)

/-- The candidate-selection loop of `_run_command`: try each command in order,
skipping ENOENT; `none` when the loop exhausts the list or hits a non-ENOENT
`OSError` (both of which make `_run_command` return `(None, None)`). -/
def findProcess (outcome : String → LaunchOutcome) : List String → Option (String × Int)
  | [] => none
  | c :: rest =>
    match outcome c with
    | .enoent => findProcess outcome rest
    | .oserror => none
    | .launched out rc => some (out, rc)

/-- `_run_command(commands, args, ...)`: returns `(stdout, returncode)` where
`stdout = process.communicate()[0].strip().decode()` on success and `None`
when no candidate launched or the process exited non-zero. -/
def run_command (outcome : String → LaunchOutcome) (commands : List String) :
    Option String × Option Int :=
  match findProcess outcome commands with
  | none => (none, none)
  | some (stdoutRaw, rc) =>
    let stdout := pyStrip stdoutRaw
    if rc ≠ 0 then (none, some rc) else (some stdout, some rc)

/-! ## versionscript.py: describe parsing, master distance, renderers

A `GitWorld` records the observable behaviour of the ambient git repository:
for each argument vector `args`, the `(stdout, returncode)` pair that
`runner(GIT_COMMANDS, args, cwd=cwd)` (i.e. `_run_command`) returns for it.
-/

structure GitWorld where
  run : List String → Option String × Option Int

/-- `MASTER_BRANCHES = ("master", "main")`. -/
def MASTER_BRANCHES : List String := ["master", "main"]

/-- `_run_git_command_or_error`: run a git command, raising
`NotThisMethodError` when it could not run or exited non-zero. -/
def run_git_command_or_error (w : GitWorld) (args : List String) : Except PyErr String :=
  let r := w.run args
  if r.2 ≠ some 0 ∨ r.1 = none then .error .notThisMethod
  else .ok (r.1.getD "")

/-- `GitMasterDistance`: distance from the tag to master and from master to
the current branch. -/
structure GitMasterDistance where
  current_branch : String
  distance_from_tag_to_master : Nat
  distance_from_master : Nat
  master_commit : String
deriving DecidableEq, Repr

/-- The `master_commit_short` property (`master_commit[:7]`; the source's
`is not None` guard is vacuously true since `master_commit : str`). -/
def GitMasterDistance.master_commit_short (m : GitMasterDistance) : String :=
  pyTake m.master_commit 7

/-- The search loop of `GitMasterDistance.from_git`: walk the commits
newest-first, counting `distance_from_master`, until one is contained in a
master branch. -/
def findMasterLoop (w : GitWorld) : List String → Nat → Except PyErr (Nat × Option String)
  | [], dfm => .ok (dfm, none)
  | commit :: rest, dfm =>
    match run_git_command_or_error w ["branch", "--contains", commit] with
    | .error e => .error e
    | .ok out =>
      let branches := (pySplitlines out).map (pyLstripChars ['*', ' '])
      if MASTER_BRANCHES.any (fun m => branches.contains m) then .ok (dfm, some commit)
      else findMasterLoop w rest (dfm + 1)

/-- `GitMasterDistance.from_git(tag_of_interest, cwd=..)`.  The `cwd`
argument is represented by the world `w`. -/
def GitMasterDistance.from_git (tag_of_interest : Option String) (w : GitWorld) :
    Except PyErr GitMasterDistance :=
  match run_git_command_or_error w ["branch", "--show-current"] with
  | .error e => .error e
  | .ok current_branch0 =>
  let current_branch := pyStrip current_branch0
  if MASTER_BRANCHES.contains current_branch then .error .currentBranchIsMaster
  else
  match (match tag_of_interest with
         | none => run_git_command_or_error w ["log", "--pretty=format:%H"]
         | some t => run_git_command_or_error w ["log", t ++ "..", "--pretty=format:%H"]) with
  | .error e => .error e
  | .ok out =>
  let all_commits := pySplitlines out
  match findMasterLoop w all_commits 0 with
  | .error e => .error e
  | .ok (distance_from_master, master_commit?) =>
  match master_commit? with
  | some master_commit =>
    .ok { current_branch
          distance_from_tag_to_master := all_commits.length - distance_from_master
          distance_from_master
          master_commit }
  | none =>
    match tag_of_interest with
    | none => .error .notThisMethod
    | some t =>
      match run_git_command_or_error w ["rev-list", "-1", t] with
      | .error e => .error e
      | .ok out2 =>
        let master_commit := pyStrip out2
        if pyLen master_commit ≠ 40 then .error .notThisMethod
        else
          .ok { current_branch
                distance_from_tag_to_master := all_commits.length - distance_from_master
                distance_from_master
                master_commit }

/-! ### Parsing `git describe` output

`re.search(r"^(.+)-(\d+)-g([0-9a-f]+)$", git_describe)`: the greedy `.+`
takes the longest tag for which the rest parses as `-NUM-gHEX`; `.` does not
match a newline, so a string containing one cannot match at all (the input is
stripped, so there is no trailing newline for `$` to sit before). -/

/-- Lowercase-hex character class `[0-9a-f]`. -/
def isHexLower (c : Char) : Bool :=
  c.isDigit || ('a' ≤ c && c ≤ 'f')

/-- Match `-NUM-gHEX` against the remainder after the candidate tag. -/
def parseNumGHex : List Char → Option (Nat × List Char)
  | '-' :: rest =>
    let ds := rest.takeWhile Char.isDigit
    let rest2 := rest.dropWhile Char.isDigit
    if ds.isEmpty then none
    else
      match rest2 with
      | '-' :: 'g' :: hex =>
        if !hex.isEmpty && hex.all isHexLower then some (digitsToNat ds, hex) else none
      | _ => none
  | _ => none

/-- Try tags of length `i, i-1, ..., 1` (longest first, as the greedy `.+`
does). -/
def parseDescribeAux (s : List Char) : Nat → Option (List Char × Nat × List Char)
  | 0 => none
  | i + 1 =>
    match parseNumGHex (s.drop (i + 1)) with
    | some (n, hex) => some (s.take (i + 1), n, hex)
    | none => parseDescribeAux s i

/-- Full match of `^(.+)-(\d+)-g([0-9a-f]+)$`. -/
def parseDescribe (s : List Char) : Option (List Char × Nat × List Char) :=
  if s.contains '\n' then none else parseDescribeAux s (s.length - 1)

/-! ### `GitPieces` -/

/-- The `GitPieces` dataclass of versionscript.py.  The `cwd` field is the
path string stored in the record; the repository state behind it is supplied
separately as a `GitWorld` wherever the source issues git commands. -/
structure GitPieces where
  long : String
  short : String
  branch : Option String
  dirty : Bool
  cwd : String
  verbose : Bool
  error : Option String := none
  distance : Option Nat := none
  closest_fulltag : Option String := none
  closest_tag : Option String := none
  date : Option String := none
deriving DecidableEq, Repr

/-- The branch-resolution block of `GitPieces.from_git`: a detached HEAD is
replaced by a branch containing the commit, preferring master/main, else the
first listed branch, else `None`. -/
def resolveBranchName (w : GitWorld) (branch_name : String) : Except PyErr (Option String) :=
  if branch_name = "HEAD" then
    let br := w.run ["branch", "--contains"]
    if br.2 ≠ some 0 ∨ br.1 = none then .error .notThisMethod
    else
      let branches := pySplitChar '\n' (br.1.getD "")
      let branches := if pyContainsChar (branches.headD "") '(' then branches.tail else branches
      let branches := branches.map (pyLstripChars ['*', ' '])
      if branches.isEmpty then .ok none
      else
        match MASTER_BRANCHES.find? (fun m => branches.contains m) with
        | some m => .ok (some m)
        | none => .ok (some (branches.headD ""))
  else .ok (some branch_name)

/-- The commit-date block of `GitPieces.from_git`: last line of
`git show -s --format=%ci HEAD`, compacted towards ISO-8601 by replacing the
first space with `T` and deleting the next. -/
def gitDate (w : GitWorld) : Except PyErr String :=
  match (w.run ["show", "-s", "--format=%ci", "HEAD"]).1 with
  | none => .error .assertionError
  | some out =>
    match (pySplitlines (pyStrip out)).getLast? with
    | none => .error .indexError
    | some d => .ok (String.mk (replaceFirstChars ' ' []
        (replaceFirstChars ' ' ['T'] (pyStrip d).data)))

/-- Strip a trailing `-dirty` marker (`git_describe[:git_describe.rindex("-dirty")]`,
guarded by `endswith`, i.e. drop the last 6 characters). -/
def stripDirtySuffix (s : String) : String :=
  if pyEndsWith s "-dirty" then pyTake s (pyLen s - 6) else s

/-- `GitPieces.from_git(tag_prefix, cwd=.., verbose=..)` (the source's
`tag_prefix` argument is called `tag_pfx` here). -/
def GitPieces.from_git (tag_pfx : String) (cwd : String) (w : GitWorld) (verbose : Bool) :
    Except PyErr GitPieces :=
  if (w.run ["rev-parse", "--git-dir"]).2 ≠ some 0 then .error .notThisMethod
  else
  match (w.run ["describe", "--tags", "--dirty", "--always", "--long", "--match",
                tag_pfx ++ "[[:digit:]]*"]).1 with
  | none => .error .notThisMethod
  | some describe_out0 =>
  let describe_out := pyStrip describe_out0
  match (w.run ["rev-parse", "HEAD"]).1 with
  | none => .error .notThisMethod
  | some full_out0 =>
  let full_out := pyStrip full_out0
  let br := w.run ["rev-parse", "--abbrev-ref", "HEAD"]
  if br.2 ≠ some 0 ∨ br.1 = none then .error .notThisMethod
  else
  match resolveBranchName w (pyStrip (br.1.getD "")) with
  | .error e => .error e
  | .ok branch =>
  let dirty := pyEndsWith describe_out "-dirty"
  let git_describe := stripDirtySuffix describe_out
  if pyContainsChar git_describe '-' then
    match parseDescribe git_describe.data with
    | none =>
      .ok { long := full_out, short := pyTake full_out 7, branch, dirty,
            error := some ("unable to parse git-describe output: '" ++ describe_out ++ "'"),
            cwd, verbose }
    | some (tagC, num, hexC) =>
      let full_tag := String.mk tagC
      if !pyStartsWith full_tag tag_pfx then
        .ok { long := full_out, short := pyTake full_out 7, branch, dirty,
              error := some ("tag '" ++ full_tag ++ "' doesn't start with prefix '"
                             ++ tag_pfx ++ "'"),
              cwd, verbose }
      else
        match gitDate w with
        | .error e => .error e
        | .ok date =>
          .ok { long := full_out, short := String.mk hexC, branch, dirty,
                error := none, distance := some num,
                closest_fulltag := some full_tag,
                closest_tag := some (pyDrop full_tag (pyLen tag_pfx)),
                date := some date, cwd, verbose }
  else
    match (w.run ["rev-list", "HEAD", "--left-right"]).1 with
    | none => .error .assertionError
    | some out =>
    let distance := (pySplitWs out).length
    match gitDate w with
    | .error e => .error e
    | .ok date =>
      .ok { long := full_out, short := pyTake full_out 7, branch, dirty,
            error := none, distance := some distance,
            closest_fulltag := none, closest_tag := none,
            date := some date, cwd, verbose }

/-! ### Style renderers -/

/-- `_plus_or_dot`: `+` unless the tag already embeds one, in which case `.`. -/
def GitPieces.plus_or_dot (p : GitPieces) : String :=
  match p.closest_tag with
  | none => "+"
  | some t => if pyContainsChar t '+' then "." else "+"

/-- `_render_pep440`: `TAG[+DISTANCE.gHEX[.dirty]]`, or
`0+untagged.DISTANCE.gHEX[.dirty]` without a tag. -/
def GitPieces.render_pep440 (p : GitPieces) : String :=
  if pyTruthyStr p.closest_tag then
    let rendered := p.closest_tag.getD ""
    if pyTruthyNat p.distance || p.dirty then
      let rendered := rendered ++ p.plus_or_dot ++ strOfOptNat p.distance ++ ".g" ++ p.short
      if p.dirty then rendered ++ ".dirty" else rendered
    else rendered
  else
    let rendered := "0+untagged." ++ strOfOptNat p.distance ++ ".g" ++ p.short
    if p.dirty then rendered ++ ".dirty" else rendered

/-- `self.branch not in MASTER_BRANCHES` (with `branch : Optional[str]`,
`None` is never a master branch). -/
def GitPieces.branchNotMaster (p : GitPieces) : Bool :=
  match p.branch with
  | none => true
  | some b => !(MASTER_BRANCHES.contains b)

/-- `_render_pep440_branch`: `TAG[[.dev0]+DISTANCE.gHEX[.dirty]]`, or
`0[.dev0]+untagged.DISTANCE.gHEX[.dirty]` without a tag. -/
def GitPieces.render_pep440_branch (p : GitPieces) : String :=
  if pyTruthyStr p.closest_tag then
    let rendered := p.closest_tag.getD ""
    if pyTruthyNat p.distance || p.dirty then
      let rendered := if p.branchNotMaster then rendered ++ ".dev0" else rendered
      let rendered := rendered ++ p.plus_or_dot ++ strOfOptNat p.distance ++ ".g" ++ p.short
      if p.dirty then rendered ++ ".dirty" else rendered
    else rendered
  else
    let rendered := "0"
    let rendered := if p.branchNotMaster then rendered ++ ".dev0" else rendered
    let rendered := rendered ++ "+untagged." ++ strOfOptNat p.distance ++ ".g" ++ p.short
    if p.dirty then rendered ++ ".dirty" else rendered

/-- `_pep440_split_post`: split at `.post`; when the split has exactly two
parts the second is `int(vc[1] or 0)` (a `ValueError` on a non-numeric rest). -/
def pep440_split_post (ver : String) : Except PyErr (String × Option Int) :=
  let vc := pySplitStr ".post" ver
  match vc with
  | [v0, v1] =>
    if v1 = "" then .ok (v0, some 0)
    else
      match pyInt v1 with
      | .error e => .error e
      | .ok n => .ok (v0, some n)
  | _ => .ok (vc.headD "", none)

/-- `_render_pep440_pre`: `TAG[.postN.devDISTANCE]`, or `0.post0.devDISTANCE`
without a tag. -/
def GitPieces.render_pep440_pre (p : GitPieces) : Except PyErr String :=
  if pyTruthyStr p.closest_tag then
    if pyTruthyNat p.distance then
      match pep440_split_post (p.closest_tag.getD "") with
      | .error e => .error e
      | .ok (tag_version, post_version) =>
        match post_version with
        | some pv => .ok (tag_version ++ ".post" ++ toString pv ++ ".dev" ++ strOfOptNat p.distance)
        | none => .ok (tag_version ++ ".post0.dev" ++ strOfOptNat p.distance)
    else .ok (p.closest_tag.getD "")
  else .ok ("0.post0.dev" ++ strOfOptNat p.distance)

/-- `_render_pep440_post`: `TAG[.postDISTANCE+gHEX[.dirty]]`, or
`0.postDISTANCE+gHEX[.dirty]` without a tag. -/
def GitPieces.render_pep440_post (p : GitPieces) : String :=
  if pyTruthyStr p.closest_tag then
    let rendered := p.closest_tag.getD ""
    if pyTruthyNat p.distance || p.dirty then
      let rendered := rendered ++ ".post" ++ strOfOptNat p.distance
      let rendered := rendered ++ p.plus_or_dot ++ "g" ++ p.short
      if p.dirty then rendered ++ ".dirty" else rendered
    else rendered
  else
    let rendered := "0.post" ++ strOfOptNat p.distance
    let rendered := rendered ++ "+g" ++ p.short
    if p.dirty then rendered ++ ".dirty" else rendered

/-- `_render_pep440_post_branch`: `TAG[.postDISTANCE[.dev0]+gHEX[.dirty]]`,
or `0.postDISTANCE[.dev0]+gHEX[.dirty]` without a tag. -/
def GitPieces.render_pep440_post_branch (p : GitPieces) : String :=
  if pyTruthyStr p.closest_tag then
    let rendered := p.closest_tag.getD ""
    if pyTruthyNat p.distance || p.dirty then
      let rendered := rendered ++ ".post" ++ strOfOptNat p.distance
      let rendered := if p.branchNotMaster then rendered ++ ".dev0" else rendered
      let rendered := rendered ++ p.plus_or_dot ++ "g" ++ p.short
      if p.dirty then rendered ++ ".dirty" else rendered
    else rendered
  else
    let rendered := "0.post" ++ strOfOptNat p.distance
    let rendered := if p.branchNotMaster then rendered ++ ".dev0" else rendered
    let rendered := rendered ++ "+g" ++ p.short
    if p.dirty then rendered ++ ".dirty" else rendered

/-- `_render_git_describe`: `TAG[-DISTANCE-gHEX][-dirty]`, or the bare short
hex (no `g`) without a tag. -/
def GitPieces.render_git_describe (p : GitPieces) : String :=
  let rendered :=
    if pyTruthyStr p.closest_tag then
      let rendered := p.closest_tag.getD ""
      if pyTruthyNat p.distance then
        rendered ++ "-" ++ strOfOptNat p.distance ++ "-g" ++ p.short
      else rendered
    else p.short
  if p.dirty then rendered ++ "-dirty" else rendered

/-- `_render_git_describe_long`: `TAG-DISTANCE-gHEX[-dirty]` (distance and
hash unconditional), or the bare short hex without a tag. -/
def GitPieces.render_git_describe_long (p : GitPieces) : String :=
  let rendered :=
    if pyTruthyStr p.closest_tag then
      (p.closest_tag.getD "") ++ "-" ++ strOfOptNat p.distance ++ "-g" ++ p.short
    else p.short
  if p.dirty then rendered ++ "-dirty" else rendered

/-- `_render_digits`: `TAG[.DISTANCE]` with dirty counting as one extra
commit of distance; raises ValueError when `error` is set and TypeError when
`distance` is `None` while dirty. -/
def GitPieces.render_digits (p : GitPieces) : Except PyErr String :=
  if pyTruthyStr p.error then .error .valueErrorUnableToRender
  else
    let closest_tag := if pyTruthyStr p.closest_tag then p.closest_tag.getD "" else "0"
    if pyTruthyNat p.distance || p.dirty then
      if p.dirty then
        match p.distance with
        | none => .error .typeError
        | some d => .ok (closest_tag ++ "." ++ toString (d + 1))
      else .ok (closest_tag ++ "." ++ strOfOptNat p.distance)
    else .ok closest_tag

/-- `_render_pep440_master`:
`TAG[+MASTERDIST.gMASTERHEX.BRANCHDIST.gHEX[.dirty]]`.  Falls back to plain
pep440 when the current branch is master, returns the bare tag when both
distances are zero, and lets `NotThisMethodError` from
`GitMasterDistance.from_git` propagate. -/
def GitPieces.render_pep440_master (p : GitPieces) (w : GitWorld) : Except PyErr String :=
  match GitMasterDistance.from_git p.closest_fulltag w with
  | .error .currentBranchIsMaster => .ok p.render_pep440
  | .error e => .error e
  | .ok master_info =>
    if master_info.distance_from_tag_to_master = 0 ∧ master_info.distance_from_master = 0 then
      .ok (pyOrStr p.closest_tag "0+untagged")
    else
      let rendered :=
        if pyTruthyStr p.closest_tag then (p.closest_tag.getD "") ++ p.plus_or_dot
        else "0+untagged."
      let rendered := rendered ++ toString master_info.distance_from_tag_to_master
        ++ ".g" ++ master_info.master_commit_short
        ++ "." ++ toString master_info.distance_from_master ++ ".g" ++ p.short
      .ok (if p.dirty then rendered ++ ".dirty" else rendered)

/-- The version styles of versionscript.py. -/
inductive VersionStyle
  | pep440
  | pep440_master
  | pep440_branch
  | pep440_pre
  | pep440_post
  | pep440_post_branch
  | git_describe
  | git_describe_long
  | digits
deriving DecidableEq, Repr

/-- The style dispatch of `GitPieces.render` (the chain of
`if style == "..."` branches producing the `rendered` string). -/
def GitPieces.renderString (p : GitPieces) (style : VersionStyle) (w : GitWorld) :
    Except PyErr String :=
  match style with
  | .pep440 => .ok p.render_pep440
  | .pep440_master => p.render_pep440_master w
  | .pep440_branch => .ok p.render_pep440_branch
  | .pep440_pre => p.render_pep440_pre
  | .pep440_post => .ok p.render_pep440_post
  | .pep440_post_branch => .ok p.render_pep440_post_branch
  | .git_describe => .ok p.render_git_describe
  | .git_describe_long => .ok p.render_git_describe_long
  | .digits => p.render_digits

/-- `GitPieces.render(style)`: short-circuit to the fixed "unknown" record
when `error` is set, otherwise dispatch on the style and assemble the
`VersionDict`.  The world `w` stands for the repository behind `self.cwd`
(consulted only by the `pep440-master` style). -/
def GitPieces.render (p : GitPieces) (style : VersionStyle) (w : GitWorld) :
    Except PyErr VersionDict :=
  if pyTruthyStr p.error then
    .ok { version := "unknown", full_revisionid := some p.long, dirty := none,
          error := p.error, date := none }
  else
    match p.renderString style w with
    | .error e => .error e
    | .ok rendered =>
      .ok { version := rendered, full_revisionid := some p.long, dirty := some p.dirty,
            error := none, date := p.date }

/-! ## versionscript.py: `get_version_dict_with_all_methods`

The two filesystem strategies (`get_version_from_pkg_info` and
`get_version_from_parentdir`) read PKG-INFO / pyproject.toml / directory
names; their outcome for this resolution call is recorded in the world
(`Except.error ()` standing for the `NotThisMethodError` they raise when not
applicable). -/

/-- Configuration (`VersionPioneerConfig`); the source's `tag_prefix` and
`parentdir_prefix` fields are called `tag_pfx` / `parentdir_pfx` here. -/
structure VersionPioneerConfig where
  style : VersionStyle := .pep440
  tag_pfx : String := "v"
  parentdir_pfx : Option String := none
  verbose : Bool := false

/-- World for one `get_version_dict_with_all_methods` call. -/
structure ResolveWorld where
  /-- outcome of `get_version_from_pkg_info(cwd)` -/
  pkg_info : Except Unit VersionDict
  /-- the git repository behind `cwd` -/
  git : GitWorld
  /-- outcome of `get_version_from_parentdir(cfg.parentdir_prefix, cwd)` -/
  parentdir : Except Unit VersionDict

/-- The body of the second `try` block:
`GitPieces.from_git(cfg.tag_prefix, cwd=cwd, verbose=cfg.verbose).render(cfg.style)`. -/
def vs_git_strategy (cfg : VersionPioneerConfig) (cwd : String) (g : GitWorld) :
    Except PyErr VersionDict :=
  match GitPieces.from_git cfg.tag_pfx cwd g cfg.verbose with
  | .error e => .error e
  | .ok p => p.render cfg.style g

/-- `get_version_dict_with_all_methods(cfg, cwd=cwd)`: PKG-INFO, then git,
then parent directory, each `try` catching only `NotThisMethodError`; all
other exceptions propagate. -/
def get_version_dict_with_all_methods (cfg : VersionPioneerConfig) (cwd : String)
    (w : ResolveWorld) : Except PyErr VersionDict :=
  match w.pkg_info with
  | .ok vd => .ok vd
  | .error () =>
    match vs_git_strategy cfg cwd w.git with
    | .ok vd => .ok vd
    | .error .notThisMethod =>
      (match w.parentdir with
       | .ok vd => .ok vd
       | .error () => .ok unableToComputeRecord)
    | .error e => .error e

/-! ## _version.py: keyword expansion and `get_versions` -/

/-- The keyword dictionary built by `_get_keywords()` (possibly substituted
by `git archive`); `none` models a missing key. -/
structure Keywords where
  refnames : Option String
  full : Option String
  date : Option String
deriving DecidableEq, Repr

/-- The literal, unsubstituted keywords of `_get_keywords()` as shipped. -/
def get_keywords : Keywords :=
  { refnames := some "$Format:%d$", full := some "$Format:%H$", date := some "$Format:%ci$" }

/-- The tag-selection loop of `_git_versions_from_keywords`: first ref (in
ascending sort order) that starts with `tag_pfx` and whose remainder starts
with a digit.  Because the source has reassigned `tag_pfx` to the literal
`"tag: "` before this loop runs, that is the value this receives. -/
def pickRef (sortedTags : List String) (tag_pfx : String) : Option String :=
  sortedTags.findSome? (fun ref =>
    if pyStartsWith ref tag_pfx then
      let r := pyDrop ref (pyLen tag_pfx)
      if (match r.data with | c :: _ => c.isDigit | [] => false) then some r else none
    else none)

/-- The date-normalization lines of `_git_versions_from_keywords`
(`keywords.get("date")`, last line, compact towards ISO-8601). -/
def kwDate (date : Option String) : Except PyErr (Option String) :=
  match date with
  | none => .ok none
  | some d =>
    match (pySplitlines d).getLast? with
    | none => .error .indexError
    | some last =>
      .ok (some (String.mk (replaceFirstChars ' ' []
            (replaceFirstChars ' ' ['T'] (pyStrip last).data))))

/-- The two return paths of `_git_versions_from_keywords` after the
selection loop: the picked tag's success record, or the "no suitable tags"
record; either way `keywords["full"]` is read (KeyError when absent). -/
def keywordsResult (pick : Option String) (full : Option String) (date : Option String) :
    Except PyErr VersionDict :=
  match pick with
  | some r =>
    (match full with
     | none => .error .keyError
     | some f =>
       .ok { version := r, full_revisionid := some (pyStrip f), dirty := some false,
             error := none, date := date })
  | none =>
    match full with
    | none => .error .keyError
    | some f =>
      .ok { version := "0+unknown", full_revisionid := some (pyStrip f),
            dirty := some false, error := some "no suitable tags", date := none }

/-- The body of `_git_versions_from_keywords` from the `refnames` strip
onwards.  Note the faithful reproduction of the source's
`tag_prefix = "tag: "` reassignment, which shadows the configured tag prefix
for the rest of the function (the selection loop included). -/
def keywordsExpand (refnames0 : String) (full : Option String) (date : Option String) :
    Except PyErr VersionDict :=
  let refnames := pyStrip refnames0
  if pyStartsWith refnames "$Format" then .error .notThisMethod
  else
    let refs := pySetList ((pySplitChar ',' (pyStripChars ['(', ')'] refnames)).map pyStrip)
    -- the source reassigns the `tag_prefix` parameter to "tag: " at this point
    let tag_pfx := "tag: "
    let tags := pySetList ((refs.filter (fun r => pyStartsWith r tag_pfx)).map
      (fun r => pyDrop r (pyLen tag_pfx)))
    let tags := if tags.isEmpty then refs.filter (fun r => r.data.any Char.isDigit) else tags
    keywordsResult (pickRef (pySorted tags) tag_pfx) full date

/-- `_git_versions_from_keywords(keywords, tag_prefix)`, assembled from the
stages above in source order. -/
def git_versions_from_keywords (keywords : Keywords) (tag_pfx : String) :
    Except PyErr VersionDict :=
  match keywords.refnames with
  | none => .error .notThisMethod
  | some refnames0 =>
    match kwDate keywords.date with
    | .error e => .error e
    | .ok date => keywordsExpand refnames0 keywords.full date

/-- Configuration of _version.py's `get_versions` (its `style` and `verbose`
fields act only inside the abstracted vcs strategy, so only the fields the
resolver itself inspects are kept). -/
structure UVConfig where
  tag_pfx : String := "v"
  parentdir_pfx : Option String := none

/-- World for one `get_versions` call in _version.py. -/
structure UVResolveWorld where
  /-- the keyword values embedded in the file (`_get_keywords()` after
  possible `git archive` substitution) -/
  keywords : Keywords
  /-- outcome of `GitPieces.from_vcs(cfg.tag_prefix, _CURRENT_DIR).render(cfg.style)` -/
  from_vcs_render : Except PyErr VersionDict
  /-- outcome of `_versions_from_parentdir(cfg.parentdir_prefix, _CURRENT_DIR)` -/
  parentdir : Except Unit VersionDict

/-- `get_versions(cfg)` of _version.py: keyword expansion, then live git
inspection, then (only when `parentdir_prefix` is configured) the parent
directory, each `try` catching only `NotThisMethodError`. -/
def get_versions (cfg : UVConfig) (w : UVResolveWorld) : Except PyErr VersionDict :=
  match git_versions_from_keywords w.keywords cfg.tag_pfx with
  | .ok vd => .ok vd
  | .error .notThisMethod =>
    (match w.from_vcs_render with
     | .ok vd => .ok vd
     | .error .notThisMethod =>
       (match cfg.parentdir_pfx with
        | some _ =>
          (match w.parentdir with
           | .ok vd => .ok vd
           | .error () => .ok unableToComputeRecord)
        | none => .ok unableToComputeRecord)
     | .error e => .error e)
  | .error e => .error e

/-! ## Generic infrastructure for the theorems -/

instance {e a : Type} [DecidableEq e] [DecidableEq a] : DecidableEq (Except e a) := fun x y =>
  match x, y with
  | .ok u, .ok v => decidable_of_iff (u = v) (by simp)
  | .error u, .error v => decidable_of_iff (u = v) (by simp)
  | .ok _, .error _ => isFalse (by simp)
  | .error _, .ok _ => isFalse (by simp)

theorem string_data_append (s t : String) : (s ++ t).data = s.data ++ t.data := rfl

/-- The head of an appended string is the head of its (nonempty) left part. -/
theorem head_append_of_head (s t : String) (c : Char) (h : s.data.head? = some c) :
    (s ++ t).data.head? = some c := by
  rw [string_data_append]
  cases hs : s.data with
  | nil => rw [hs] at h; simp at h
  | cons x xs => rw [hs] at h; simp at h; simp [hs, h]

/-- A string extending a nonempty one on the right is itself nonempty
(hence truthy in Python). -/
theorem truthyStr_append_left (s t : String) (c : Char) (h : s.data.head? = some c) :
    pyTruthyStr (some (s ++ t)) = true := by
  have hd := head_append_of_head s t c h
  unfold pyTruthyStr
  cases hst : (s ++ t).data with
  | nil => rw [hst] at hd; simp at hd
  | cons x xs =>
    simp only [Bool.not_eq_true']
    apply decide_eq_false
    intro hEq
    have : (s ++ t).data = "".data := by rw [hEq]
    rw [hst] at this
    simp at this

/-! ## Concrete fixtures -/

/-- A world in which git is entirely unavailable (every invocation yields
`(None, None)`). -/
def nullWorld : GitWorld := ⟨fun _ => (none, none)⟩

/-- A repository snapshot: clean checkout on master, tag v1.2.3 four commits
behind HEAD. -/
def repoWorldA : GitWorld :=
  ⟨fun args =>
    if args = ["rev-parse", "--git-dir"] then (some ".git", some 0)
    else if args = ["describe", "--tags", "--dirty", "--always", "--long", "--match",
                    "v[[:digit:]]*"] then
      (some "v1.2.3-4-g1abcdef", some 0)
    else if args = ["rev-parse", "HEAD"] then
      (some "1abcdef0000000000000000000000000000000000", some 0)
    else if args = ["rev-parse", "--abbrev-ref", "HEAD"] then (some "master", some 0)
    else if args = ["show", "-s", "--format=%ci", "HEAD"] then
      (some "2024-01-02 03:04:05 +0900", some 0)
    else (none, none)⟩

/-- The `GitPieces` that `from_git` produces on `repoWorldA`. -/
def piecesA : GitPieces :=
  { long := "1abcdef0000000000000000000000000000000000", short := "1abcdef",
    branch := some "master", dirty := false, cwd := ".", verbose := false,
    error := none, distance := some 4, closest_fulltag := some "v1.2.3",
    closest_tag := some "1.2.3", date := some "2024-01-02T03:04:05+0900" }

/-- The `VersionDict` the git strategy yields on `repoWorldA` in pep440 style. -/
def gitRecA : VersionDict :=
  { version := "1.2.3+4.g1abcdef",
    full_revisionid := some "1abcdef0000000000000000000000000000000000",
    dirty := some false, error := none, date := some "2024-01-02T03:04:05+0900" }

/-! ## C4 — keyword expansion tag selection -/

/-- Expanded archive keywords in which HEAD carries the tag v1.0.0. -/
def keywordsTagged : Keywords :=
  { refnames := some "(HEAD -> master, tag: v1.0.0)",
    full := some "0123456789abcdef0123456789abcdef01234567",
    date := none }

/-- C4: the claimed behaviour fails because `_git_versions_from_keywords`
reassigns its `tag_prefix` parameter to the literal "tag: " before the
selection loop, so the loop (which tests each already-stripped tag against
that value) never matches: with expanded keywords carrying `tag: v1.0.0` and
configured prefix "v" the function returns the error record
`{version: "0+unknown", error: "no suitable tags"}` instead of the successful
`{version: "1.0.0", error: null}` the claim (and the source's own comments)
describe. -/
theorem c4_keyword_selection_bug :
    git_versions_from_keywords keywordsTagged "v" =
      .ok { version := "0+unknown",
            full_revisionid := some "0123456789abcdef0123456789abcdef01234567",
            dirty := some false, error := some "no suitable tags", date := none } ∧
    pyStartsWith "v1.0.0" "v" = true ∧
    pyDrop "v1.0.0" (pyLen "v") = "1.0.0" := by decide

/-! ## C5 — Process Runner on non-zero exit -/

/-- A single candidate that launches, prints "boom", and exits with code 1. -/
def launchBoom : String → LaunchOutcome := fun _ => .launched "boom\n" 1

/-- C5 counterexample: a candidate that launches and exits non-zero makes
`_run_command` return `(None, returncode)` — the captured, trimmed stdout is
not returned (the claim says the pair `("boom", 1)` would be). -/
theorem c5_counterexample :
    run_command launchBoom ["git"] = (none, some 1) ∧
    (none, some 1) ≠ ((some "boom" : Option String), (some 1 : Option Int)) := by decide

/-- C5 (amended): when a candidate launches and exits with a non-zero code,
`_run_command` returns `None` in place of the output, paired with that exit
code; the captured stdout is only printed in verbose mode, never returned. -/
theorem c5_amended (f : String → LaunchOutcome) (cs : List String) (out : String) (rc : Int)
    (h1 : findProcess f cs = some (out, rc)) (h2 : rc ≠ 0) :
    run_command f cs = (none, some rc) := by
  unfold run_command
  rw [h1]
  simp [h2]

/-- C5 witness: the amended theorem at the concrete failing candidate. -/
theorem c5_witness : run_command launchBoom ["git"] = (none, some 1) :=
  c5_amended launchBoom ["git"] "boom\n" 1 (by decide) (by decide)

/-! ## C2 — error forces version "unknown" -/

/-- C2 counterexample: the keyword-expansion strategy can return a record
whose error is non-null while its version is "0+unknown", not "unknown". -/
theorem c2_counterexample :
    git_versions_from_keywords ⟨some "(tag: v2.0)", some "fhash", none⟩ "v" =
      .ok { version := "0+unknown", full_revisionid := some "fhash", dirty := some false,
            error := some "no suitable tags", date := none } ∧
    ("0+unknown" : String) ≠ "unknown" := by decide

/-- Helper: an ok record of `keywordsResult` with non-null error is the
"no suitable tags" record, whose version is "0+unknown". -/
theorem keywordsResult_error_version (pick full date : Option String) (vd : VersionDict)
    (hok : keywordsResult pick full date = .ok vd) (herr : vd.error ≠ none) :
    vd.version = "0+unknown" := by
  unfold keywordsResult at hok
  cases pick with
  | some r =>
    cases full with
    | none => exact absurd hok (by simp)
    | some f => injection hok with h; subst h; simp at herr
  | none =>
    cases full with
    | none => exact absurd hok (by simp)
    | some f => injection hok with h; subst h; rfl

/-- Helper: the same property lifted through `keywordsExpand`. -/
theorem keywordsExpand_error_version (r0 : String) (full date : Option String)
    (vd : VersionDict) (hok : keywordsExpand r0 full date = .ok vd)
    (herr : vd.error ≠ none) : vd.version = "0+unknown" := by
  unfold keywordsExpand at hok
  simp only [] at hok
  by_cases hF : pyStartsWith (pyStrip r0) "$Format" = true
  · rw [if_pos hF] at hok; exact absurd hok (by simp)
  · rw [if_neg hF] at hok
    exact keywordsResult_error_version _ _ _ _ hok herr

/-- C2 (amended): a non-null error forces version "unknown" in every record
the renderer produces; the keyword-expansion failure record and the
total-resolution-failure record instead pair their non-null error with the
version "0+unknown". -/
theorem c2_amended :
    (∀ (p : GitPieces) (s : VersionStyle) (w : GitWorld) (vd : VersionDict),
        p.render s w = .ok vd → vd.error ≠ none → vd.version = "unknown") ∧
    (∀ (kw : Keywords) (tp : String) (vd : VersionDict),
        git_versions_from_keywords kw tp = .ok vd → vd.error ≠ none →
          vd.version = "0+unknown") ∧
    (∀ (cfg : VersionPioneerConfig) (cwd : String) (w : ResolveWorld) (vd : VersionDict),
        (∀ v, w.pkg_info = .ok v → v.error = none) →
        (∀ v, w.parentdir = .ok v → v.error = none) →
        get_version_dict_with_all_methods cfg cwd w = .ok vd → vd.error ≠ none →
          vd.version = "unknown" ∨ vd.version = "0+unknown") := by
  have ha : ∀ (p : GitPieces) (s : VersionStyle) (w : GitWorld) (vd : VersionDict),
      p.render s w = .ok vd → vd.error ≠ none → vd.version = "unknown" := by
    intro p s w vd hok herr
    unfold GitPieces.render at hok
    by_cases hE : pyTruthyStr p.error
    · rw [if_pos hE] at hok
      injection hok with h
      subst h
      rfl
    · rw [if_neg hE] at hok
      cases hR : p.renderString s w with
      | error e => rw [hR] at hok; exact absurd hok (by simp)
      | ok rendered =>
        rw [hR] at hok
        injection hok with h
        subst h
        simp at herr
  refine ⟨ha, ?_, ?_⟩
  · intro kw tp vd hok herr
    unfold git_versions_from_keywords at hok
    cases hr : kw.refnames with
    | none => rw [hr] at hok; exact absurd hok (by simp)
    | some r0 =>
      rw [hr] at hok
      simp only [] at hok
      cases hd : kwDate kw.date with
      | error e => rw [hd] at hok; exact absurd hok (by simp)
      | ok date =>
        rw [hd] at hok
        simp only [] at hok
        exact keywordsExpand_error_version r0 kw.full date vd hok herr
  · intro cfg cwd w vd hpk hpd hok herr
    unfold get_version_dict_with_all_methods at hok
    cases hw : w.pkg_info with
    | ok v =>
      rw [hw] at hok
      injection hok with h
      subst h
      exact absurd (hpk _ hw) herr
    | error u =>
      cases u
      rw [hw] at hok
      cases hg : vs_git_strategy cfg cwd w.git with
      | ok v =>
        rw [hg] at hok
        injection hok with h
        subst h
        unfold vs_git_strategy at hg
        cases hfg : GitPieces.from_git cfg.tag_pfx cwd w.git cfg.verbose with
        | error e => rw [hfg] at hg; exact absurd hg (by simp)
        | ok p =>
          rw [hfg] at hg
          exact Or.inl (ha p cfg.style w.git _ hg herr)
      | error e =>
        rw [hg] at hok
        cases e
        case notThisMethod =>
          cases hp : w.parentdir with
          | ok v =>
            rw [hp] at hok
            injection hok with h
            subst h
            exact absurd (hpd _ hp) herr
          | error u2 =>
            cases u2
            rw [hp] at hok
            injection hok with h
            subst h
            exact Or.inr rfl
        all_goals exact absurd hok (by simp)

/-- A `GitPieces` record carrying a parse error. -/
def erroredPieces : GitPieces :=
  { long := "deadbeef", short := "deadbee", branch := none, dirty := false,
    cwd := ".", verbose := false, error := some "boom" }

/-- The record `erroredPieces.render` produces for any style. -/
def unknownRecBoom : VersionDict :=
  { version := "unknown", full_revisionid := some "deadbeef", dirty := none,
    error := some "boom", date := none }

/-- C2 witness: the renderer clause of the amended theorem at a concrete
errored record. -/
theorem c2_witness : unknownRecBoom.version = "unknown" :=
  c2_amended.1 erroredPieces .pep440 nullWorld unknownRecBoom (by decide) (by decide)

/-! ## C3 — rendering without a closest tag -/

/-- An untagged checkout: ten commits, no tag reachable. -/
def noTagPieces : GitPieces :=
  { long := "abc1234def0000000000000000000000000000000", short := "abc1234",
    branch := some "master", dirty := false, cwd := ".", verbose := false,
    error := none, distance := some 10, closest_fulltag := none,
    closest_tag := none, date := none }

/-- C3 counterexample: with no closest tag, the git-describe style renders
the bare short revision id, which does not begin with "0". -/
theorem c3_counterexample :
    noTagPieces.render .git_describe nullWorld =
      .ok { version := "abc1234",
            full_revisionid := some "abc1234def0000000000000000000000000000000",
            dirty := some false, error := none, date := none } ∧
    "abc1234".data.head? ≠ some '0' := by decide

theorem render_pep440_head0 (p : GitPieces) (htag : p.closest_tag = none) :
    p.render_pep440.data.head? = some '0' := by
  have h : pyTruthyStr p.closest_tag = false := by rw [htag]; rfl
  unfold GitPieces.render_pep440
  simp only [h, Bool.false_eq_true, if_false]
  split <;> repeat (first | decide | apply head_append_of_head)

theorem render_pep440_branch_head0 (p : GitPieces) (htag : p.closest_tag = none) :
    p.render_pep440_branch.data.head? = some '0' := by
  have h : pyTruthyStr p.closest_tag = false := by rw [htag]; rfl
  unfold GitPieces.render_pep440_branch
  simp only [h, Bool.false_eq_true, if_false]
  split <;> split <;> repeat (first | decide | apply head_append_of_head)

theorem render_pep440_pre_head0 (p : GitPieces) (r : String) (htag : p.closest_tag = none)
    (hok : p.render_pep440_pre = .ok r) : r.data.head? = some '0' := by
  have h : pyTruthyStr p.closest_tag = false := by rw [htag]; rfl
  unfold GitPieces.render_pep440_pre at hok
  simp only [h, Bool.false_eq_true, if_false] at hok
  injection hok with h2
  subst h2
  repeat (first | decide | apply head_append_of_head)

theorem render_pep440_post_head0 (p : GitPieces) (htag : p.closest_tag = none) :
    p.render_pep440_post.data.head? = some '0' := by
  have h : pyTruthyStr p.closest_tag = false := by rw [htag]; rfl
  unfold GitPieces.render_pep440_post
  simp only [h, Bool.false_eq_true, if_false]
  split <;> repeat (first | decide | apply head_append_of_head)

theorem render_pep440_post_branch_head0 (p : GitPieces) (htag : p.closest_tag = none) :
    p.render_pep440_post_branch.data.head? = some '0' := by
  have h : pyTruthyStr p.closest_tag = false := by rw [htag]; rfl
  unfold GitPieces.render_pep440_post_branch
  simp only [h, Bool.false_eq_true, if_false]
  split <;> split <;> repeat (first | decide | apply head_append_of_head)

theorem render_digits_head0 (p : GitPieces) (r : String) (htag : p.closest_tag = none)
    (herr : p.error = none) (hok : p.render_digits = .ok r) : r.data.head? = some '0' := by
  have h : pyTruthyStr p.closest_tag = false := by rw [htag]; rfl
  have hE : pyTruthyStr p.error = false := by rw [herr]; rfl
  unfold GitPieces.render_digits at hok
  simp only [h, hE, Bool.false_eq_true, if_false] at hok
  split at hok
  · split at hok
    · cases hD : p.distance with
      | none => rw [hD] at hok; exact absurd hok (by simp)
      | some d =>
        rw [hD] at hok
        simp only [] at hok
        injection hok with h2
        subst h2
        repeat (first | decide | apply head_append_of_head)
    · injection hok with h2
      subst h2
      repeat (first | decide | apply head_append_of_head)
  · injection hok with h2
    subst h2
    decide

theorem render_pep440_master_head0 (p : GitPieces) (w : GitWorld) (r : String)
    (htag : p.closest_tag = none) (hok : p.render_pep440_master w = .ok r) :
    r.data.head? = some '0' := by
  have h : pyTruthyStr p.closest_tag = false := by rw [htag]; rfl
  unfold GitPieces.render_pep440_master at hok
  cases hM : GitMasterDistance.from_git p.closest_fulltag w with
  | error e =>
    rw [hM] at hok
    cases e <;> simp only [] at hok
    case currentBranchIsMaster =>
      injection hok with h2
      subst h2
      exact render_pep440_head0 p htag
    all_goals exact absurd hok (by simp)
  | ok mi =>
    rw [hM] at hok
    simp only [] at hok
    split at hok
    · injection hok with h2
      subst h2
      unfold pyOrStr
      simp only [h, Bool.false_eq_true, if_false]
      decide
    · simp only [h, Bool.false_eq_true, if_false] at hok
      injection hok with h2
      subst h2
      split <;> repeat (first | decide | apply head_append_of_head)

/-- C3 (amended): with `closest_tag == null` and `error == null`, every style
except git-describe and git-describe-long renders a version beginning with
"0"; the two git-describe styles render the bare short revision id instead
(which need not begin with "0", as the counterexample shows). -/
theorem c3_amended (p : GitPieces) (s : VersionStyle) (w : GitWorld) (vd : VersionDict)
    (herr : p.error = none) (htag : p.closest_tag = none)
    (hs1 : s ≠ .git_describe) (hs2 : s ≠ .git_describe_long)
    (hok : p.render s w = .ok vd) :
    vd.version.data.head? = some '0' := by
  have hE : pyTruthyStr p.error = false := by rw [herr]; rfl
  unfold GitPieces.render at hok
  simp only [hE, Bool.false_eq_true, if_false] at hok
  cases s
  case git_describe => exact absurd rfl hs1
  case git_describe_long => exact absurd rfl hs2
  case pep440 =>
    simp only [GitPieces.renderString] at hok
    injection hok with h2
    subst h2
    exact render_pep440_head0 p htag
  case pep440_branch =>
    simp only [GitPieces.renderString] at hok
    injection hok with h2
    subst h2
    exact render_pep440_branch_head0 p htag
  case pep440_post =>
    simp only [GitPieces.renderString] at hok
    injection hok with h2
    subst h2
    exact render_pep440_post_head0 p htag
  case pep440_post_branch =>
    simp only [GitPieces.renderString] at hok
    injection hok with h2
    subst h2
    exact render_pep440_post_branch_head0 p htag
  case pep440_pre =>
    simp only [GitPieces.renderString] at hok
    cases hR : p.render_pep440_pre with
    | error e => rw [hR] at hok; exact absurd hok (by simp)
    | ok r =>
      rw [hR] at hok
      injection hok with h2
      subst h2
      exact render_pep440_pre_head0 p r htag hR
  case digits =>
    simp only [GitPieces.renderString] at hok
    cases hR : p.render_digits with
    | error e => rw [hR] at hok; exact absurd hok (by simp)
    | ok r =>
      rw [hR] at hok
      injection hok with h2
      subst h2
      exact render_digits_head0 p r htag herr hR
  case pep440_master =>
    simp only [GitPieces.renderString] at hok
    cases hR : p.render_pep440_master w with
    | error e => rw [hR] at hok; exact absurd hok (by simp)
    | ok r =>
      rw [hR] at hok
      injection hok with h2
      subst h2
      exact render_pep440_master_head0 p w r htag hR

/-- C3 witness: the amended theorem at the untagged pieces in pep440 style. -/
theorem c3_witness :
    ({ version := "0+untagged.10.gabc1234",
       full_revisionid := some "abc1234def0000000000000000000000000000000",
       dirty := some false, error := none, date := none } : VersionDict).version.data.head?
      = some '0' :=
  c3_amended noTagPieces .pep440 nullWorld _ rfl rfl (by decide) (by decide) (by decide)

/-! ## C9 — purity of rendering -/

/-- A repository state in which the tag sits exactly at the master fork
point (both master distances zero). -/
def masterWorldZero : GitWorld :=
  ⟨fun args =>
    if args = ["branch", "--show-current"] then (some "feat", some 0)
    else if args = ["log", "v1.2.3..", "--pretty=format:%H"] then (some "", some 0)
    else if args = ["rev-list", "-1", "v1.2.3"] then
      (some "1234567890123456789012345678901234567890", some 0)
    else (none, none)⟩

/-- The same checkout after master advanced: three commits since the tag,
the second of which is on master. -/
def masterWorldTwo : GitWorld :=
  ⟨fun args =>
    if args = ["branch", "--show-current"] then (some "feat", some 0)
    else if args = ["log", "v1.2.3..", "--pretty=format:%H"] then (some "h1\nh2\nh3", some 0)
    else if args = ["branch", "--contains", "h1"] then (some "feat", some 0)
    else if args = ["branch", "--contains", "h2"] then (some "* feat\n  master", some 0)
    else (none, none)⟩

/-- C9 counterexample: rendering the same `GitPieces` record in the
pep440-master style against two different repository states yields different
output — the style consults git, so rendering is not a pure function of the
(pieces, style) pair. -/
theorem c9_counterexample :
    piecesA.render .pep440_master masterWorldZero =
      .ok { version := "1.2.3",
            full_revisionid := some "1abcdef0000000000000000000000000000000000",
            dirty := some false, error := none, date := some "2024-01-02T03:04:05+0900" } ∧
    piecesA.render .pep440_master masterWorldTwo =
      .ok { version := "1.2.3+2.gh2.1.g1abcdef",
            full_revisionid := some "1abcdef0000000000000000000000000000000000",
            dirty := some false, error := none, date := some "2024-01-02T03:04:05+0900" } ∧
    piecesA.render .pep440_master masterWorldZero ≠
      piecesA.render .pep440_master masterWorldTwo := by decide

/-- C9 (amended): rendering is deterministic, and for every style except
pep440-master it does not depend on the ambient repository state at all; the
pep440-master style re-inspects the repository and may differ between
identical calls (see the counterexample). -/
theorem c9_amended (p : GitPieces) (s : VersionStyle) (w1 w2 : GitWorld)
    (h : s ≠ .pep440_master) : p.render s w1 = p.render s w2 := by
  cases s <;> first | rfl | exact absurd rfl h

/-- C9 witness: the amended theorem on two different repository states in
plain pep440 style. -/
theorem c9_witness :
    piecesA.render .pep440 masterWorldZero = piecesA.render .pep440 masterWorldTwo :=
  c9_amended piecesA .pep440 masterWorldZero masterWorldTwo (by decide)

/-! ## C10 — the digits guard is unreachable through render -/

/-- Helper: once `render` has let a record through (its `error` field falsy),
`_render_digits` cannot reach its ValueError branch. -/
theorem render_digits_no_valueError (p : GitPieces) (hE : pyTruthyStr p.error = false) :
    p.render_digits ≠ .error .valueErrorUnableToRender := by
  unfold GitPieces.render_digits
  simp only [hE, Bool.false_eq_true, if_false]
  split
  · split
    · cases p.distance <;> simp
    · simp
  · simp

/-- C10: rendering through `render()` in the digits style never raises the
"Unable to render version" ValueError: a truthy error field short-circuits to
the fixed unknown record before `_render_digits` runs, and otherwise the
guard inside `_render_digits` is false. -/
theorem c10_digits_guard_unreachable (p : GitPieces) (w : GitWorld) :
    (∀ e, p.error = some e → e ≠ "" →
        p.render .digits w = .ok { version := "unknown", full_revisionid := some p.long,
                                   dirty := none, error := p.error, date := none }) ∧
    p.render .digits w ≠ .error .valueErrorUnableToRender := by
  constructor
  · intro e he hne
    have hT : pyTruthyStr p.error = true := by
      rw [he]; unfold pyTruthyStr; simp [hne]
    unfold GitPieces.render
    simp [hT]
  · intro hbad
    unfold GitPieces.render at hbad
    cases hE : pyTruthyStr p.error with
    | true => simp only [hE, if_true] at hbad; exact absurd hbad (by simp)
    | false =>
      simp only [hE, Bool.false_eq_true, if_false] at hbad
      simp only [GitPieces.renderString] at hbad
      cases hR : p.render_digits with
      | ok r => rw [hR] at hbad; exact absurd hbad (by simp)
      | error e =>
        rw [hR] at hbad
        simp only [] at hbad
        injection hbad with h3
        subst h3
        exact render_digits_no_valueError p hE hR

/-- C10 witness: the first clause of the theorem at a concrete errored
record. -/
theorem c10_witness :
    erroredPieces.render .digits nullWorld =
      .ok { version := "unknown", full_revisionid := some "deadbeef", dirty := none,
            error := some "boom", date := none } :=
  (c10_digits_guard_unreachable erroredPieces nullWorld).1 "boom" rfl (by decide)

/-! ## C7 — total resolution failure -/

/-- C7: when every strategy raises `NotThisMethodError`, both resolvers
return exactly the record `{version: "0+unknown",
error: "unable to compute version"}` with null revision id, dirty flag and
date. -/
theorem c7_total_failure
    (cfg : VersionPioneerConfig) (cwd : String) (w : ResolveWorld)
    (h1 : w.pkg_info = .error ()) (h2 : vs_git_strategy cfg cwd w.git = .error .notThisMethod)
    (h3 : w.parentdir = .error ())
    (ucfg : UVConfig) (uw : UVResolveWorld)
    (h4 : git_versions_from_keywords uw.keywords ucfg.tag_pfx = .error .notThisMethod)
    (h5 : uw.from_vcs_render = .error .notThisMethod)
    (h6 : ucfg.parentdir_pfx = none) :
    get_version_dict_with_all_methods cfg cwd w = .ok unableToComputeRecord ∧
    get_versions ucfg uw = .ok unableToComputeRecord ∧
    unableToComputeRecord.version = "0+unknown" ∧
    unableToComputeRecord.error = some "unable to compute version" ∧
    unableToComputeRecord.full_revisionid = none ∧
    unableToComputeRecord.dirty = none ∧
    unableToComputeRecord.date = none := by
  refine ⟨?_, ?_, rfl, rfl, rfl, rfl, rfl⟩
  · unfold get_version_dict_with_all_methods
    rw [h1, h2, h3]
  · unfold get_versions
    rw [h4, h5, h6]

/-- A world in which no strategy of versionscript.py applies. -/
def failWorld : ResolveWorld :=
  { pkg_info := .error (), git := nullWorld, parentdir := .error () }

/-- A world in which no strategy of _version.py applies (keywords are the
shipped, unexpanded literals). -/
def uvFailWorld : UVResolveWorld :=
  { keywords := get_keywords, from_vcs_render := .error .notThisMethod,
    parentdir := .error () }

/-- C7 witness: both resolvers at concrete all-failing worlds. -/
theorem c7_witness :
    get_version_dict_with_all_methods {} "." failWorld = .ok unableToComputeRecord ∧
    get_versions {} uvFailWorld = .ok unableToComputeRecord := by
  have h := c7_total_failure {} "." failWorld rfl (by decide) rfl {} uvFailWorld
    (by decide) rfl rfl
  exact ⟨h.1, h.2.1⟩

/-! ## C1 — strategy order of the Fallback Resolver -/

/-- A frozen-metadata record distinct from what git inspection yields. -/
def pkgRecNine : VersionDict :=
  { version := "9.9.9", full_revisionid := none, dirty := some false,
    error := none, date := none }

/-- A world in which both the PKG-INFO strategy and live git inspection
succeed. -/
def bothWorld : ResolveWorld :=
  { pkg_info := .ok pkgRecNine, git := repoWorldA, parentdir := .error () }

/-- C1 counterexample: in versionscript.py's resolver the frozen-package-
metadata strategy (PKG-INFO) runs *before* live inspection: with both
applicable, the resolver returns the PKG-INFO record even though the git
strategy succeeds with a different record — the claimed priority (live
inspection at 2, frozen metadata at 3) is violated; moreover that resolver
has no archive-keyword strategy at all. -/
theorem c1_counterexample :
    get_version_dict_with_all_methods {} "." bothWorld = .ok pkgRecNine ∧
    vs_git_strategy {} "." bothWorld.git = .ok gitRecA ∧
    pkgRecNine ≠ gitRecA := by decide

/-- C1 (amended): each resolver tries its strategies in its own fixed order
and returns the first success, cascading only on `NotThisMethodError`:
versionscript.py tries frozen package metadata (PKG-INFO), then live git
inspection, then the parent directory (no keyword strategy); _version.py
tries archive-keyword expansion, then live git inspection, then — only when
a parentdir prefix is configured — the parent directory; both fall back to
the "unable to compute version" record, and any other exception propagates. -/
theorem c1_amended :
    (∀ (cfg : VersionPioneerConfig) (cwd : String) (w : ResolveWorld) v,
        w.pkg_info = .ok v → get_version_dict_with_all_methods cfg cwd w = .ok v) ∧
    (∀ (cfg : VersionPioneerConfig) (cwd : String) (w : ResolveWorld) v,
        w.pkg_info = .error () →
        vs_git_strategy cfg cwd w.git = .ok v →
        get_version_dict_with_all_methods cfg cwd w = .ok v) ∧
    (∀ (cfg : VersionPioneerConfig) (cwd : String) (w : ResolveWorld) v,
        w.pkg_info = .error () →
        vs_git_strategy cfg cwd w.git = .error .notThisMethod → w.parentdir = .ok v →
        get_version_dict_with_all_methods cfg cwd w = .ok v) ∧
    (∀ (cfg : VersionPioneerConfig) (cwd : String) (w : ResolveWorld),
        w.pkg_info = .error () →
        vs_git_strategy cfg cwd w.git = .error .notThisMethod → w.parentdir = .error () →
        get_version_dict_with_all_methods cfg cwd w = .ok unableToComputeRecord) ∧
    (∀ (cfg : VersionPioneerConfig) (cwd : String) (w : ResolveWorld) e,
        w.pkg_info = .error () →
        vs_git_strategy cfg cwd w.git = .error e → e ≠ .notThisMethod →
        get_version_dict_with_all_methods cfg cwd w = .error e) ∧
    (∀ (cfg : UVConfig) (w : UVResolveWorld) v,
        git_versions_from_keywords w.keywords cfg.tag_pfx = .ok v →
        get_versions cfg w = .ok v) ∧
    (∀ (cfg : UVConfig) (w : UVResolveWorld) v,
        git_versions_from_keywords w.keywords cfg.tag_pfx = .error .notThisMethod →
        w.from_vcs_render = .ok v → get_versions cfg w = .ok v) ∧
    (∀ (cfg : UVConfig) (w : UVResolveWorld) pfx v,
        git_versions_from_keywords w.keywords cfg.tag_pfx = .error .notThisMethod →
        w.from_vcs_render = .error .notThisMethod → cfg.parentdir_pfx = some pfx →
        w.parentdir = .ok v → get_versions cfg w = .ok v) ∧
    (∀ (cfg : UVConfig) (w : UVResolveWorld),
        git_versions_from_keywords w.keywords cfg.tag_pfx = .error .notThisMethod →
        w.from_vcs_render = .error .notThisMethod → cfg.parentdir_pfx = none →
        get_versions cfg w = .ok unableToComputeRecord) := by
  refine ⟨?_, ?_, ?_, ?_, ?_, ?_, ?_, ?_, ?_⟩
  · intro cfg cwd w v h1
    unfold get_version_dict_with_all_methods; rw [h1]
  · intro cfg cwd w v h1 h2
    unfold get_version_dict_with_all_methods; rw [h1, h2]
  · intro cfg cwd w v h1 h2 h3
    unfold get_version_dict_with_all_methods; rw [h1, h2, h3]
  · intro cfg cwd w h1 h2 h3
    unfold get_version_dict_with_all_methods; rw [h1, h2, h3]
  · intro cfg cwd w e h1 h2 hne
    unfold get_version_dict_with_all_methods; rw [h1, h2]
    cases e <;> first | rfl | exact absurd rfl hne
  · intro cfg w v h1
    unfold get_versions; rw [h1]
  · intro cfg w v h1 h2
    unfold get_versions; rw [h1, h2]
  · intro cfg w pfx v h1 h2 h3 h4
    unfold get_versions; rw [h1, h2, h3, h4]
  · intro cfg w h1 h2 h3
    unfold get_versions; rw [h1, h2, h3]

/-- A world in which only live git inspection applies. -/
def gitOnlyWorld : ResolveWorld :=
  { pkg_info := .error (), git := repoWorldA, parentdir := .error () }

/-- C1 witness: the second clause of the amended theorem — with PKG-INFO not
applicable, live inspection's record is returned. -/
theorem c1_witness : get_version_dict_with_all_methods {} "." gitOnlyWorld = .ok gitRecA :=
  c1_amended.2.1 {} "." gitOnlyWorld gitRecA rfl (by decide)

/-! ## C6 — tag with the wrong prefix is reportable, not a fallback -/

/-- A nonempty-headed string is truthy in Python. -/
theorem truthyStr_of_head (s : String) (c : Char) (h : s.data.head? = some c) :
    pyTruthyStr (some s) = true := by
  have hne : s ≠ "" := by
    intro he
    rw [he] at h
    simp at h
  unfold pyTruthyStr
  simp [hne]

/-- C6: when the describe output parses as TAG-NUM-gHEX but the tag does not
start with the configured prefix, `from_git` returns a record (`.ok`, not a
`NotThisMethodError` that would cascade) whose error names the offending
tag, and rendering any style from a record carrying that error yields
version "unknown". -/
theorem c6_wrong_tag_reportable
    (tp cwd : String) (vb : Bool) (w : GitWorld) (dOut fOut bn : String)
    (tagC hexC : List Char) (num : Nat)
    (h1 : (w.run ["rev-parse", "--git-dir"]).2 = some 0)
    (h2 : (w.run ["describe", "--tags", "--dirty", "--always", "--long", "--match",
                  tp ++ "[[:digit:]]*"]).1 = some dOut)
    (h3 : (w.run ["rev-parse", "HEAD"]).1 = some fOut)
    (h4 : w.run ["rev-parse", "--abbrev-ref", "HEAD"] = (some bn, some 0))
    (h5 : pyStrip bn ≠ "HEAD")
    (h6 : pyContainsChar (stripDirtySuffix (pyStrip dOut)) '-' = true)
    (h7 : parseDescribe (stripDirtySuffix (pyStrip dOut)).data = some (tagC, num, hexC))
    (h8 : pyStartsWith (String.mk tagC) tp = false) :
    GitPieces.from_git tp cwd w vb = .ok
      { long := pyStrip fOut, short := pyTake (pyStrip fOut) 7,
        branch := some (pyStrip bn), dirty := pyEndsWith (pyStrip dOut) "-dirty",
        cwd := cwd, verbose := vb,
        error := some ("tag '" ++ String.mk tagC ++ "' doesn't start with prefix '"
                       ++ tp ++ "'") } ∧
    (∀ (p : GitPieces) (style : VersionStyle) (w' : GitWorld),
      p.error = some ("tag '" ++ String.mk tagC ++ "' doesn't start with prefix '"
                      ++ tp ++ "'") →
      p.render style w' =
        .ok { version := "unknown", full_revisionid := some p.long, dirty := none,
              error := p.error, date := none }) := by
  constructor
  · unfold GitPieces.from_git
    simp only [h1, h2, h3, h4, resolveBranchName, h5, h6, h7, h8,
      ne_eq, not_true_eq_false, if_false, Bool.not_false, if_true,
      reduceCtorEq, or_self, or_false, false_or, not_false_eq_true]
    simp [h5]
  · intro p style w' hperr
    have hT : pyTruthyStr p.error = true := by
      rw [hperr]
      apply truthyStr_of_head _ 't'
      repeat (first | decide | apply head_append_of_head)
    unfold GitPieces.render
    simp [hT]

/-- A repository whose nearest matching tag is `release-2.0`, not matching
the configured prefix "v". -/
def wrongTagWorld : GitWorld :=
  ⟨fun args =>
    if args = ["rev-parse", "--git-dir"] then (some ".git", some 0)
    else if args = ["describe", "--tags", "--dirty", "--always", "--long", "--match",
                    "v[[:digit:]]*"] then (some "release-2.0-3-gabc1234", some 0)
    else if args = ["rev-parse", "HEAD"] then
      (some "abcd123400000000000000000000000000000000", some 0)
    else if args = ["rev-parse", "--abbrev-ref", "HEAD"] then (some "master", some 0)
    else (none, none)⟩

/-- C6 witness: the theorem on the concrete `release-2.0` scenario. -/
theorem c6_witness :
    GitPieces.from_git "v" "." wrongTagWorld false = .ok
      { long := "abcd123400000000000000000000000000000000", short := "abcd123",
        branch := some "master", dirty := false, cwd := ".", verbose := false,
        error := some "tag 'release-2.0' doesn't start with prefix 'v'" } ∧
    GitPieces.render
      { long := "abcd123400000000000000000000000000000000", short := "abcd123",
        branch := some "master", dirty := false, cwd := ".", verbose := false,
        error := some "tag 'release-2.0' doesn't start with prefix 'v'" } .pep440 nullWorld
      = .ok { version := "unknown",
              full_revisionid := some "abcd123400000000000000000000000000000000",
              dirty := none,
              error := some "tag 'release-2.0' doesn't start with prefix 'v'",
              date := none } := by
  have h := c6_wrong_tag_reportable "v" "." false wrongTagWorld
    "release-2.0-3-gabc1234" "abcd123400000000000000000000000000000000" "master"
    "release-2.0".data "abc1234".data 3
    (by decide) (by decide) (by decide) (by decide) (by decide) (by decide)
    (by decide) (by decide)
  exact ⟨h.1, h.2 _ .pep440 nullWorld rfl⟩

/-! ## C8 — dirty adds one to the distance only in the digits style -/

/-- A tagged checkout (tag v1.2.3, feature branch) at distance `d`, with the
dirty flag as given. -/
def dirtyPieces (d : Nat) (dirty : Bool) : GitPieces :=
  { long := "1abcdef0000000000000000000000000000000000", short := "1abcdef",
    branch := some "feat", dirty := dirty, cwd := ".", verbose := false,
    error := none, distance := some d, closest_fulltag := some "v1.2.3",
    closest_tag := some "1.2.3", date := some "2024-01-02T03:04:05+0900" }

/-- C8: in the digits style a dirty tree renders distance `d` as `d + 1`
while a clean one renders `d`; in every other style — the master-distance
style included — the distance numerals in the output are identical for the
dirty and the clean record, the dirty flag contributing at most a textual
marker. -/
theorem c8_digits_dirty_distance (d : Nat) (hd : d ≠ 0) :
    ((dirtyPieces d true).render_digits = .ok ("1.2.3." ++ toString (d + 1))) ∧
    ((dirtyPieces d false).render_digits = .ok ("1.2.3." ++ toString d)) ∧
    ((dirtyPieces d true).render_pep440 = "1.2.3+" ++ toString d ++ ".g1abcdef.dirty") ∧
    ((dirtyPieces d false).render_pep440 = "1.2.3+" ++ toString d ++ ".g1abcdef") ∧
    ((dirtyPieces d true).render_pep440_branch
      = "1.2.3.dev0+" ++ toString d ++ ".g1abcdef.dirty") ∧
    ((dirtyPieces d false).render_pep440_branch
      = "1.2.3.dev0+" ++ toString d ++ ".g1abcdef") ∧
    ((dirtyPieces d true).render_pep440_pre = .ok ("1.2.3.post0.dev" ++ toString d)) ∧
    ((dirtyPieces d false).render_pep440_pre = .ok ("1.2.3.post0.dev" ++ toString d)) ∧
    ((dirtyPieces d true).render_pep440_post
      = "1.2.3.post" ++ toString d ++ "+g1abcdef.dirty") ∧
    ((dirtyPieces d false).render_pep440_post
      = "1.2.3.post" ++ toString d ++ "+g1abcdef") ∧
    ((dirtyPieces d true).render_pep440_post_branch
      = "1.2.3.post" ++ toString d ++ ".dev0+g1abcdef.dirty") ∧
    ((dirtyPieces d false).render_pep440_post_branch
      = "1.2.3.post" ++ toString d ++ ".dev0+g1abcdef") ∧
    ((dirtyPieces d true).render_git_describe
      = "1.2.3-" ++ toString d ++ "-g1abcdef-dirty") ∧
    ((dirtyPieces d false).render_git_describe
      = "1.2.3-" ++ toString d ++ "-g1abcdef") ∧
    ((dirtyPieces d true).render_git_describe_long
      = "1.2.3-" ++ toString d ++ "-g1abcdef-dirty") ∧
    ((dirtyPieces d false).render_git_describe_long
      = "1.2.3-" ++ toString d ++ "-g1abcdef") ∧
    (∀ (w : GitWorld) (mi : GitMasterDistance),
      GitMasterDistance.from_git (some "v1.2.3") w = .ok mi →
      ¬ (mi.distance_from_tag_to_master = 0 ∧ mi.distance_from_master = 0) →
      (dirtyPieces d true).render_pep440_master w =
        .ok ("1.2.3+" ++ toString mi.distance_from_tag_to_master ++ ".g"
             ++ mi.master_commit_short ++ "." ++ toString mi.distance_from_master
             ++ ".g1abcdef.dirty") ∧
      (dirtyPieces d false).render_pep440_master w =
        .ok ("1.2.3+" ++ toString mi.distance_from_tag_to_master ++ ".g"
             ++ mi.master_commit_short ++ "." ++ toString mi.distance_from_master
             ++ ".g1abcdef")) := by
  have htr : pyTruthyNat (some d) = true := by
    unfold pyTruthyNat
    simp [hd]
  refine ⟨?_, ?_, ?_, ?_, ?_, ?_, ?_, ?_, ?_, ?_, ?_, ?_, ?_, ?_, ?_, ?_, ?_⟩
  · simp [GitPieces.render_digits, dirtyPieces, pyTruthyStr, String.append_assoc]
  · simp [GitPieces.render_digits, dirtyPieces, pyTruthyStr, htr, strOfOptNat,
      String.append_assoc]
  · simp [GitPieces.render_pep440, dirtyPieces, pyTruthyStr, htr, strOfOptNat,
      GitPieces.plus_or_dot, pyContainsChar, String.append_assoc]
  · simp [GitPieces.render_pep440, dirtyPieces, pyTruthyStr, htr, strOfOptNat,
      GitPieces.plus_or_dot, pyContainsChar, String.append_assoc]
  · simp [GitPieces.render_pep440_branch, dirtyPieces, pyTruthyStr, htr, strOfOptNat,
      GitPieces.plus_or_dot, GitPieces.branchNotMaster, MASTER_BRANCHES,
      pyContainsChar, String.append_assoc]
  · simp [GitPieces.render_pep440_branch, dirtyPieces, pyTruthyStr, htr, strOfOptNat,
      GitPieces.plus_or_dot, GitPieces.branchNotMaster, MASTER_BRANCHES,
      pyContainsChar, String.append_assoc]
  · have hsplit : pep440_split_post "1.2.3" = .ok ("1.2.3", none) := by decide
    simp [GitPieces.render_pep440_pre, dirtyPieces, pyTruthyStr, htr, strOfOptNat,
      hsplit, String.append_assoc]
  · have hsplit : pep440_split_post "1.2.3" = .ok ("1.2.3", none) := by decide
    simp [GitPieces.render_pep440_pre, dirtyPieces, pyTruthyStr, htr, strOfOptNat,
      hsplit, String.append_assoc]
  · simp [GitPieces.render_pep440_post, dirtyPieces, pyTruthyStr, htr, strOfOptNat,
      GitPieces.plus_or_dot, pyContainsChar, String.append_assoc]
  · simp [GitPieces.render_pep440_post, dirtyPieces, pyTruthyStr, htr, strOfOptNat,
      GitPieces.plus_or_dot, pyContainsChar, String.append_assoc]
  · simp [GitPieces.render_pep440_post_branch, dirtyPieces, pyTruthyStr, htr, strOfOptNat,
      GitPieces.plus_or_dot, GitPieces.branchNotMaster, MASTER_BRANCHES,
      pyContainsChar, String.append_assoc]
  · simp [GitPieces.render_pep440_post_branch, dirtyPieces, pyTruthyStr, htr, strOfOptNat,
      GitPieces.plus_or_dot, GitPieces.branchNotMaster, MASTER_BRANCHES,
      pyContainsChar, String.append_assoc]
  · simp [GitPieces.render_git_describe, dirtyPieces, pyTruthyStr, htr, strOfOptNat,
      String.append_assoc]
  · simp [GitPieces.render_git_describe, dirtyPieces, pyTruthyStr, htr, strOfOptNat,
      String.append_assoc]
  · simp [GitPieces.render_git_describe_long, dirtyPieces, pyTruthyStr, strOfOptNat,
      String.append_assoc]
  · simp [GitPieces.render_git_describe_long, dirtyPieces, pyTruthyStr, strOfOptNat,
      String.append_assoc]
  · intro w mi hMi hnz
    constructor
    · unfold GitPieces.render_pep440_master
      rw [show (dirtyPieces d true).closest_fulltag = some "v1.2.3" from rfl, hMi]
      simp only [hnz, if_false]
      simp [dirtyPieces, pyTruthyStr, GitPieces.plus_or_dot, pyContainsChar,
        String.append_assoc]
    · unfold GitPieces.render_pep440_master
      rw [show (dirtyPieces d false).closest_fulltag = some "v1.2.3" from rfl, hMi]
      simp only [hnz, if_false]
      simp [dirtyPieces, pyTruthyStr, GitPieces.plus_or_dot, pyContainsChar,
        String.append_assoc]

/-- C8 witness: the theorem at distance 4 — digits renders 5 when dirty and
4 when clean, while pep440 keeps the distance 4 either way. -/
theorem c8_witness :
    (dirtyPieces 4 true).render_digits = .ok "1.2.3.5" ∧
    (dirtyPieces 4 false).render_digits = .ok "1.2.3.4" ∧
    (dirtyPieces 4 true).render_pep440 = "1.2.3+4.g1abcdef.dirty" := by
  have h := c8_digits_dirty_distance 4 (by decide)
  exact ⟨h.1, h.2.1, h.2.2.1⟩

end VersionPioneer
